import Mathlib

/-!
Shallow embedding of the volatilithings volatility-surface code
(src/svioptimizer.py, src/svisurface.py, src/vola_surface.py).

Modelling conventions: Python floats appearing as dictionary keys,
log-moneyness query points and grid coordinates are modelled as rationals
(`ℚ`, exact arithmetic, decidable order); values flowing through `sqrt`
are modelled as reals (`ℝ`).  Python exceptions are modelled by
`Except PyError`; a Python function that can implicitly return `None`
returns an `Option`.
-/

/-- Python exception kinds raised by (or reachable from) the modelled code. -/
inductive PyError where
  | typeError (msg : String)
  | valueError (msg : String)
  | runtimeError (msg : String)
  | unboundLocalError (msg : String)
  | keyError (msg : String)
  | indexError (msg : String)
deriving DecidableEq

/-- Models `enums.SVIParameterizationType` (RAW, NATURAL, JUMP_WING). -/
inductive SVIParameterizationType where
  | RAW
  | NATURAL
  | JUMP_WING
deriving DecidableEq

/-- The 5 raw SVI parameters `(a, b, rho, m, sigma)`, as unpacked in
`SVI.svi_total_variance`. -/
structure RawParams where
  a : ℝ
  b : ℝ
  rho : ℝ
  m : ℝ
  sigma : ℝ

/-- Models `SVI.svi_total_variance` (src/svioptimizer.py).  The body is a
single `if self.parameterization == SVIParameterizationType.RAW:` with no
`else` branch, so for NATURAL and JUMP_WING the Python function falls
through and implicitly returns `None`, modelled by `none`. -/
noncomputable def svi_total_variance (pt : SVIParameterizationType)
    (p : RawParams) (k : ℝ) : Option ℝ :=
  match pt with
  | .RAW => some (p.a + p.b * (p.rho * (k - p.m) +
      Real.sqrt ((k - p.m) ^ 2 + p.sigma ^ 2)))
  | _ => none

/-- The numerical safeguard `1e-10` used in `SVI.svi_implied_vol`. -/
def varianceFloor : ℚ := 1 / 10 ^ 10

/-- Models `SVI.svi_implied_vol`: `np.sqrt(np.maximum(w, 1e-10))`.  When
`svi_total_variance` returned `None` (non-RAW parameterization),
`np.maximum(None, 1e-10)` raises a `TypeError`. -/
noncomputable def svi_implied_vol (pt : SVIParameterizationType)
    (p : RawParams) (k : ℝ) : Except PyError ℝ :=
  match svi_total_variance pt p k with
  | some w => .ok (Real.sqrt (max w ((varianceFloor : ℚ) : ℝ)))
  | none => .error (.typeError
      "unsupported comparison between NoneType and float in np.maximum")

/-- State of an `SVI` object (src/svioptimizer.py): the parameterization,
the initial guess, and `optimal_params`, which is `None` until
`optimize` has run. -/
structure SVI where
  parameterization : SVIParameterizationType
  initial_params : RawParams
  optimal_params : Option RawParams

/-- Models the two-argument constructor `SVI(parameterization, initial_params)`:
sets `optimal_params = None`. -/
def SVI.create (pt : SVIParameterizationType) (ip : RawParams) : SVI :=
  ⟨pt, ip, none⟩

/-- Models the call `SVI(self.parameterization)` appearing in
`SVISurface.fit` (src/svisurface.py).  `SVI.__init__` declares two required
positional parameters, `parameterization` and `initial_params`; the call
supplies only one, so Python raises a `TypeError` before any object is
created. -/
def SVI.callWithOneArg (_pt : SVIParameterizationType) : Except PyError SVI :=
  .error (.typeError
    "SVI.__init__ missing 1 required positional argument: initial_params")

/-- Models `SVI.optimize`.  `bounds` is assigned only under
`if self.parameterization == SVIParameterizationType.RAW:`; for any other
parameterization the subsequent `minimize(..., bounds=bounds)` call raises
`UnboundLocalError`.  The external `scipy.optimize.minimize` result vector
`result.x` is modelled by the oracle argument `minimizeResult`; the method
stores it in `optimal_params` unconditionally (no convergence check). -/
def SVI.optimize (minimizeResult : RawParams) (svi : SVI)
    (_k_market _iv_market : List ℝ) : Except PyError SVI :=
  match svi.parameterization with
  | .RAW => .ok { svi with optimal_params := some minimizeResult }
  | _ => .error (.unboundLocalError
      "local variable bounds referenced before assignment")

/-- Models `SVI.evaluate`: raises `RuntimeError` when `optimal_params` is
still `None`, otherwise returns `svi_implied_vol(optimal_params, k)`. -/
noncomputable def SVI.evaluate (svi : SVI) (k : ℝ) : Except PyError ℝ :=
  match svi.optimal_params with
  | none => .error (.runtimeError "You must call optimize() before evaluate().")
  | some p => svi_implied_vol svi.parameterization p k

/-- State of an `SVISurface` object (src/svisurface.py): the chosen
parameterization, the dictionary `slices : {T: SVI}` and the dictionary
`fitted_params : {T: optimal_params}`.  Python dictionaries are modelled
as association lists in insertion order with unique keys. -/
structure SVISurface where
  parameterization : SVIParameterizationType
  slices : List (ℚ × SVI)
  fitted_params : List (ℚ × Option RawParams)

/-- Models `SVISurface.__init__`: empty dictionaries. -/
def SVISurface.empty (pt : SVIParameterizationType) : SVISurface :=
  ⟨pt, [], []⟩

/-- Python dictionary assignment `d[key] = v`: replace in place when the key
exists, append otherwise. -/
def dictSet {α : Type} : List (ℚ × α) → ℚ → α → List (ℚ × α)
  | [], key, v => [(key, v)]
  | (k0, v0) :: rest, key, v =>
      if k0 = key then (key, v) :: rest else (k0, v0) :: dictSet rest key v

/-- Models `SVISurface.fit(market_data)`: for each `(T, (k, iv))` entry it
executes `svi = SVI(self.parameterization)` — a one-argument call to a
two-argument constructor (see `SVI.callWithOneArg`) — then
`svi.optimize(k, iv)` and stores `svi` and its `optimal_params` under `T`.
`minimizeOracle` supplies the external scipy minimizer output per maturity. -/
def SVISurface.fit (minimizeOracle : ℚ → RawParams) (s : SVISurface) :
    List (ℚ × (List ℝ × List ℝ)) → Except PyError SVISurface
  | [] => .ok s
  | (T, (kArr, ivArr)) :: rest =>
    match SVI.callWithOneArg s.parameterization with
    | .error e => .error e
    | .ok svi =>
      match svi.optimize (minimizeOracle T) kArr ivArr with
      | .error e => .error e
      | .ok svi2 =>
        SVISurface.fit minimizeOracle
          { s with
            slices := dictSet s.slices T svi2
            fitted_params := dictSet s.fitted_params T svi2.optimal_params }
          rest

/-- The list `sorted(self.slices.keys())` computed in `SVISurface.evaluate`. -/
def SVISurface.sortedKeys (s : SVISurface) : List ℚ :=
  (s.slices.map Prod.fst).insertionSort (· ≤ ·)

/-- Models the loop `for i in range(len(maturities) - 1)` in
`SVISurface.evaluate`: scan adjacent pairs of the sorted maturities and
return the first pair with `T1 < T < T2`. -/
def findBracket : List ℚ → ℚ → Option (ℚ × ℚ)
  | T1 :: T2 :: rest, T =>
      if T1 < T ∧ T < T2 then some (T1, T2) else findBracket (T2 :: rest) T
  | _, _ => none

/-- Dictionary read `self.slices[T1].evaluate(k)` for a key taken from
`self.slices.keys()`; the `keyError` branch is unreachable for such keys. -/
noncomputable def SVISurface.sliceEval (s : SVISurface) (T : ℚ) (k : ℚ) :
    Except PyError ℝ :=
  match s.slices.lookup T with
  | some sl => sl.evaluate (k : ℝ)
  | none => .error (.keyError "maturity not present in slices")

/-- Wraps a slice result into the surface result channel: a Python `return`
of a float where the enclosing function may also implicitly return `None`. -/
def exceptSome (r : Except PyError ℝ) : Except PyError (Option ℝ) :=
  match r with
  | .error e => .error e
  | .ok v => .ok (some v)

/-- Models `SVISurface.evaluate(k, T)` (src/svisurface.py): not-fitted guard
on `fitted_params`, exact dictionary-key match, bracketing loop with linear
interpolation in implied-vol space, flat extrapolation outside the fitted
range, and the implicit `None` fall-through (`.ok none`). -/
noncomputable def SVISurface.evaluate (s : SVISurface) (k : ℚ) (T : ℚ) :
    Except PyError (Option ℝ) :=
  match s.fitted_params with
  | [] => .error (.runtimeError "SVI surface has not been fitted yet.")
  | _ :: _ =>
    match s.slices.lookup T with
    | some sl => exceptSome (sl.evaluate (k : ℝ))
    | none =>
      match findBracket s.sortedKeys T with
      | some (T1, T2) =>
        match s.sliceEval T1 k with
        | .error e => .error e
        | .ok iv1 =>
          match s.sliceEval T2 k with
          | .error e => .error e
          | .ok iv2 =>
            .ok (some ((1 - (((T - T1) / (T2 - T1) : ℚ) : ℝ)) * iv1 +
                       (((T - T1) / (T2 - T1) : ℚ) : ℝ) * iv2))
      | none =>
        match s.sortedKeys with
        | [] => .error (.indexError "list index out of range")
        | m0 :: rest =>
          if T < m0 then exceptSome (s.sliceEval m0 k)
          else if (m0 :: rest).getLast (List.cons_ne_nil m0 rest) < T then
            exceptSome (s.sliceEval
              ((m0 :: rest).getLast (List.cons_ne_nil m0 rest)) k)
          else .ok none

/-- The shape `np.asarray(vol_matrix).shape` of a nested list, when it is a
non-empty rectangular 2-D array.  An empty outer list has 1-D shape `(0,)`
and a ragged nested list makes `np.asarray` itself fail; both are `none`
(never equal to a 2-D target shape). -/
def npShape (mat : List (List ℚ)) : Option (ℕ × ℕ) :=
  match mat with
  | [] => none
  | r :: rs =>
      if rs.all (fun row => row.length == r.length) then
        some (mat.length, r.length)
      else none

/-- State of a `VolatilitySurface` object (src/vola_surface.py): the grids,
the volatility matrix, and the `RegularGridInterpolator` configuration
`bounds_error = not extrapolate`, `fill_value`.  The float default
`fill_value = np.nan` is modelled by an arbitrary rational. -/
structure VolatilitySurface where
  strikes : List ℚ
  maturities : List ℚ
  vols : List (List ℚ)
  extrapolate : Bool
  fill_value : ℚ
deriving DecidableEq

/-- Strictly ascending grid check (`np.all(np.diff(p) > 0)`). -/
def strictAsc : List ℚ → Bool
  | a :: b :: rest => decide (a < b) && strictAsc (b :: rest)
  | _ => true

/-- Strictly descending grid check (`np.all(np.diff(p) < 0)`). -/
def strictDesc : List ℚ → Bool
  | a :: b :: rest => decide (b < a) && strictDesc (b :: rest)
  | _ => true

/-- Models `VolatilitySurface.__init__`: raises `ValueError` when
`vol_matrix.shape != (len(strikes), len(maturities))`; afterwards
`scipy.interpolate.RegularGridInterpolator` requires each grid to be
strictly ascending or strictly descending (ascending grids are the
documented, modelled orientation). -/
def VolatilitySurface.build (strikes maturities : List ℚ)
    (vol_matrix : List (List ℚ)) (extrapolate : Bool) (fill_value : ℚ) :
    Except PyError VolatilitySurface :=
  match npShape vol_matrix with
  | none => .error (.valueError
      "vol_matrix is not a 2-D array of the requested shape")
  | some shape =>
    if shape = (strikes.length, maturities.length) then
      if (strictAsc strikes || strictDesc strikes) &&
          (strictAsc maturities || strictDesc maturities) then
        .ok ⟨strikes, maturities, vol_matrix, extrapolate, fill_value⟩
      else .error (.valueError
        "The points in each dimension must be strictly ascending or descending")
    else .error (.valueError
      "vol_matrix must have shape (len strikes, len maturities)")

/-- The `RegularGridInterpolator` bounds check: a query point is out of
bounds when its strike or maturity lies strictly outside the full grid
extent (grid boundaries are inclusive). -/
def VolatilitySurface.oob (vs : VolatilitySurface) (strike maturity : ℚ) :
    Bool :=
  decide (strike < vs.strikes.head!) || decide (vs.strikes.getLast! < strike) ||
  decide (maturity < vs.maturities.head!) ||
  decide (vs.maturities.getLast! < maturity)

/-- `np.searchsorted(grid, x)` with the default left side on an ascending
grid: the number of grid elements strictly below `x`. -/
def searchsortedLeft (grid : List ℚ) (x : ℚ) : ℕ :=
  (grid.takeWhile (fun g => decide (g < x))).length

/-- The bracketing-cell index used by `RegularGridInterpolator`:
`searchsorted(grid, x) - 1` clipped into `[0, len(grid) - 2]` (natural
subtraction realizes the lower clip). -/
def cellIndex (grid : List ℚ) (x : ℚ) : ℕ :=
  min (searchsortedLeft grid x - 1) (grid.length - 2)

/-- Matrix entry `vols[i][j]` (in-bounds reads only). -/
def VolatilitySurface.gridVal (vs : VolatilitySurface) (i j : ℕ) : ℚ :=
  (vs.vols.getD i []).getD j 0

/-- The bilinear interpolation performed by `RegularGridInterpolator` with
`method='linear'` at an in-bounds point: product of the per-dimension
normalized distances over the four corners of the bracketing cell. -/
def VolatilitySurface.bilinearAt (vs : VolatilitySurface) (s m : ℚ) : ℚ :=
  let i := cellIndex vs.strikes s
  let j := cellIndex vs.maturities m
  let x1 := vs.strikes.getD i 0
  let x2 := vs.strikes.getD (i + 1) 0
  let y1 := vs.maturities.getD j 0
  let y2 := vs.maturities.getD (j + 1) 0
  let ws := (s - x1) / (x2 - x1)
  let wm := (m - y1) / (y2 - y1)
  (1 - ws) * (1 - wm) * vs.gridVal i j +
    ws * (1 - wm) * vs.gridVal (i + 1) j +
    (1 - ws) * wm * vs.gridVal i (j + 1) +
    ws * wm * vs.gridVal (i + 1) (j + 1)

/-- Models `VolatilitySurface.get_vol(strike, maturity)`: with
`bounds_error = not extrapolate`, an out-of-bounds query raises
`ValueError` when `extrapolate` is false and returns `fill_value` when it
is true; an in-bounds query returns the bilinear interpolant. -/
def VolatilitySurface.get_vol (vs : VolatilitySurface) (strike maturity : ℚ) :
    Except PyError ℚ :=
  if vs.oob strike maturity then
    if vs.extrapolate then .ok vs.fill_value
    else .error (.valueError "One of the requested xi is out of bounds")
  else .ok (vs.bilinearAt strike maturity)

/-- Models `VolatilitySurface.get_vol_grid(strikes_grid, maturities_grid)`:
the meshgrid of all query points is passed to the interpolator in one call,
so with `bounds_error` any single out-of-bounds point fails the whole call
and nothing is returned; otherwise the result has one row per query strike
and one column per query maturity. -/
def VolatilitySurface.get_vol_grid (vs : VolatilitySurface)
    (strikes_grid maturities_grid : List ℚ) :
    Except PyError (List (List ℚ)) :=
  if vs.extrapolate = false ∧
      (strikes_grid.any fun s => maturities_grid.any fun m => vs.oob s m) = true
  then .error (.valueError "One of the requested xi is out of bounds")
  else .ok (strikes_grid.map fun s => maturities_grid.map fun m =>
    if vs.oob s m then vs.fill_value else vs.bilinearAt s m)

/-! ### Helper lemmas about dictionary lookup and the bracketing scan -/

/-- A key absent from an association list is not found by `List.lookup`. -/
theorem lookup_eq_none_of_not_mem_keys {α : Type} (l : List (ℚ × α)) (T : ℚ)
    (h : T ∉ l.map Prod.fst) : l.lookup T = none := by
  induction l with
  | nil => rfl
  | cons p rest ih =>
    obtain ⟨k0, v0⟩ := p
    simp only [List.map_cons, List.mem_cons, not_or] at h
    simp only [List.lookup]
    rw [show (T == k0) = false from beq_eq_false_iff_ne.2 h.1]
    exact ih h.2

/-- A sorted duplicate-free list is strictly sorted. -/
theorem pairwise_lt_of_sorted_nodup (l : List ℚ)
    (hs : l.Sorted (· ≤ ·)) (hn : l.Nodup) : l.Pairwise (· < ·) :=
  (List.Pairwise.and hs hn).imp (fun h => lt_of_le_of_ne h.1 h.2)

/-- Every element of a `≤`-sorted list is at most its last element. -/
theorem le_getLast_of_pairwise (l : List ℚ) (hs : l.Pairwise (· ≤ ·))
    (x : ℚ) (hx : x ∈ l) (h : l ≠ []) : x ≤ l.getLast h := by
  induction l with
  | nil => exact absurd rfl h
  | cons a rest ih =>
    cases rest with
    | nil =>
      simp only [List.mem_singleton] at hx
      simp [hx]
    | cons b r2 =>
      rw [List.getLast_cons (List.cons_ne_nil b r2)]
      rcases List.mem_cons.1 hx with rfl | hx2
      · exact (List.pairwise_cons.1 hs).1 _ (List.getLast_mem (List.cons_ne_nil b r2))
      · exact ih (List.pairwise_cons.1 hs).2 hx2 (List.cons_ne_nil b r2)

/-- The bracketing scan finds nothing when the query lies below every
maturity. -/
theorem findBracket_eq_none_of_forall_lt (l : List ℚ) (T : ℚ)
    (h : ∀ x ∈ l, T < x) : findBracket l T = none := by
  induction l with
  | nil => rfl
  | cons a rest ih =>
    cases rest with
    | nil => rfl
    | cons b r2 =>
      have hc : ¬ (a < T ∧ T < b) :=
        fun hc => absurd hc.1 (not_lt.2 (h a (by simp)).le)
      simp only [findBracket]
      rw [if_neg hc]
      exact ih (fun x hx => h x (List.mem_cons_of_mem a hx))

/-- The bracketing scan finds nothing when the query lies above every
maturity. -/
theorem findBracket_eq_none_of_forall_gt (l : List ℚ) (T : ℚ)
    (h : ∀ x ∈ l, x < T) : findBracket l T = none := by
  induction l with
  | nil => rfl
  | cons a rest ih =>
    cases rest with
    | nil => rfl
    | cons b r2 =>
      have hc : ¬ (a < T ∧ T < b) :=
        fun hc => absurd hc.2 (not_lt.2 (h b (by simp)).le)
      simp only [findBracket]
      rw [if_neg hc]
      exact ih (fun x hx => h x (List.mem_cons_of_mem a hx))

/-- On a strictly sorted maturity list, the bracketing scan returns exactly
the adjacent pair enclosing the query. -/
theorem findBracket_append (l₁ l₂ : List ℚ) (T1 T2 T : ℚ)
    (hsort : (l₁ ++ T1 :: T2 :: l₂).Pairwise (· < ·))
    (h1 : T1 < T) (h2 : T < T2) :
    findBracket (l₁ ++ T1 :: T2 :: l₂) T = some (T1, T2) := by
  induction l₁ with
  | nil =>
    simp only [List.nil_append, findBracket]
    rw [if_pos ⟨h1, h2⟩]
  | cons a l₁' ih =>
    have hsort' : (l₁' ++ T1 :: T2 :: l₂).Pairwise (· < ·) :=
      (List.pairwise_cons.1 hsort).2
    cases hl : l₁' ++ T1 :: T2 :: l₂ with
    | nil => exact absurd hl (by simp)
    | cons b rest2 =>
      have hbT1 : b ≤ T1 := by
        cases l₁' with
        | nil =>
          simp only [List.nil_append, List.cons.injEq] at hl
          exact le_of_eq hl.1.symm
        | cons c l₁'' =>
          simp only [List.cons_append, List.cons.injEq] at hl
          have hc : (c :: (l₁'' ++ T1 :: T2 :: l₂)).Pairwise (· < ·) := by
            simpa using hsort'
          have : c < T1 := (List.pairwise_cons.1 hc).1 T1 (by simp)
          exact hl.1 ▸ this.le
      have hcond : ¬ (a < T ∧ T < b) :=
        fun hc => absurd hc.2 (not_lt.2 (hbT1.trans h1.le))
      rw [List.cons_append, hl]
      simp only [findBracket]
      rw [if_neg hcond, ← hl]
      exact ih hsort'

/-- A query strictly between an adjacent pair of a strictly sorted list is
not an element of the list. -/
theorem not_mem_of_between (l₁ l₂ : List ℚ) (T1 T2 T : ℚ)
    (hsort : (l₁ ++ T1 :: T2 :: l₂).Pairwise (· < ·))
    (h1 : T1 < T) (h2 : T < T2) :
    T ∉ l₁ ++ T1 :: T2 :: l₂ := by
  intro hmem
  rcases List.mem_append.1 hmem with hmem | hmem
  · have hTT1 : T < T1 :=
      (List.pairwise_append.1 hsort).2.2 T hmem T1 (by simp)
    exact absurd h1 (not_lt.2 hTT1.le)
  · have hp : (T1 :: T2 :: l₂).Pairwise (· < ·) :=
      (List.pairwise_append.1 hsort).2.1
    rcases List.mem_cons.1 hmem with rfl | hmem2
    · exact lt_irrefl T h1
    rcases List.mem_cons.1 hmem2 with rfl | hmem3
    · exact lt_irrefl T h2
    · have hT2T : T2 < T :=
        (List.pairwise_cons.1 (List.pairwise_cons.1 hp).2).1 T hmem3
      exact absurd h2 (not_lt.2 hT2T.le)

/-- A convex combination with weight in `[0, 1]` lies between its endpoints. -/
theorem convex_comb_between (w a b : ℝ) (h0 : 0 ≤ w) (h1 : w ≤ 1) :
    min a b ≤ (1 - w) * a + w * b ∧ (1 - w) * a + w * b ≤ max a b := by
  rcases le_total a b with hab | hab
  · rw [min_eq_left hab, max_eq_right hab]
    constructor
    · nlinarith [mul_nonneg h0 (sub_nonneg.2 hab)]
    · nlinarith [mul_nonneg (sub_nonneg.2 h1) (sub_nonneg.2 hab)]
  · rw [min_eq_right hab, max_eq_left hab]
    constructor
    · nlinarith [mul_nonneg (sub_nonneg.2 h1) (sub_nonneg.2 hab)]
    · nlinarith [mul_nonneg h0 (sub_nonneg.2 hab)]

/-- The strictly sorted view of the fitted maturities: `sortedKeys` is
strictly sorted whenever the dictionary keys are duplicate-free. -/
theorem sortedKeys_pairwise_lt (s : SVISurface)
    (hn : (s.slices.map Prod.fst).Nodup) :
    s.sortedKeys.Pairwise (· < ·) :=
  pairwise_lt_of_sorted_nodup _
    (List.sorted_insertionSort _ _)
    ((List.perm_insertionSort _ _).nodup_iff.2 hn)

/-- Membership in `sortedKeys` coincides with membership among the slice
keys. -/
theorem mem_sortedKeys (s : SVISurface) (x : ℚ) :
    x ∈ s.sortedKeys ↔ x ∈ s.slices.map Prod.fst :=
  (List.perm_insertionSort _ _).mem_iff

/-- Case disjunction for `Option`. -/
theorem option_eq_none_or_some {α : Type} (o : Option α) :
    o = none ∨ ∃ x, o = some x := by
  cases o with
  | none => exact Or.inl rfl
  | some x => exact Or.inr ⟨x, rfl⟩

/-- Case disjunction for `Except`. -/
theorem except_eq_error_or_ok {α β : Type} (x : Except α β) :
    (∃ e, x = .error e) ∨ (∃ v, x = .ok v) := by
  cases x with
  | error e => exact Or.inl ⟨e, rfl⟩
  | ok v => exact Or.inr ⟨v, rfl⟩

/-- `exceptSome` cannot produce an error its argument cannot produce. -/
theorem exceptSome_ne_error_of (r : Except PyError ℝ) (e : PyError)
    (h : r ≠ .error e) : exceptSome r ≠ .error e := by
  cases r with
  | ok v => simp [exceptSome]
  | error e2 =>
    simp only [exceptSome]
    intro hc
    injection hc with h2
    exact h (by rw [h2])

/-- A slice evaluation never produces the surface-level not-fitted message:
its own errors are the optimize-first `RuntimeError` or a `TypeError`. -/
theorem svi_evaluate_ne_surface_msg (sl : SVI) (k : ℝ) :
    sl.evaluate k ≠
      .error (.runtimeError "SVI surface has not been fitted yet.") := by
  unfold SVI.evaluate
  rcases option_eq_none_or_some sl.optimal_params with hop | ⟨p, hop⟩
  · simp only [hop]
    intro hc
    injection hc with h
    injection h with h2
    exact absurd h2 (by decide)
  · simp only [hop]
    unfold svi_implied_vol
    rcases option_eq_none_or_some (svi_total_variance sl.parameterization p k)
      with hv | ⟨w, hv⟩
    · simp only [hv]
      intro hc
      injection hc with h
      exact PyError.noConfusion h
    · simp only [hv]
      simp

/-- A dictionary slice read never produces the surface-level not-fitted
message either. -/
theorem sliceEval_ne_surface_msg (s : SVISurface) (T k : ℚ) :
    s.sliceEval T k ≠
      .error (.runtimeError "SVI surface has not been fitted yet.") := by
  unfold SVISurface.sliceEval
  rcases option_eq_none_or_some (s.slices.lookup T) with hlk | ⟨sl, hlk⟩
  · simp only [hlk]
    intro hc
    injection hc with h
    exact PyError.noConfusion h
  · simp only [hlk]
    exact svi_evaluate_ne_surface_msg sl _

/-- Once `fitted_params` is non-empty, `SVISurface.evaluate` can no longer
raise the not-fitted error: the error is tied to the unfitted state only. -/
theorem evaluate_ne_notfitted_of_fitted (s : SVISurface) (k T : ℚ)
    (hf : s.fitted_params ≠ []) :
    s.evaluate k T ≠
      .error (.runtimeError "SVI surface has not been fitted yet.") := by
  unfold SVISurface.evaluate
  cases hfp : s.fitted_params with
  | nil => exact absurd hfp hf
  | cons a fps =>
    rcases option_eq_none_or_some (s.slices.lookup T) with hlk | ⟨sl, hlk⟩
    · simp only [hlk]
      rcases option_eq_none_or_some (findBracket s.sortedKeys T)
        with hfb | ⟨⟨T1, T2⟩, hfb⟩
      · simp only [hfb]
        cases hsk : s.sortedKeys with
        | nil =>
          intro hc
          injection hc with h
          exact PyError.noConfusion h
        | cons m0 rest =>
          dsimp only
          by_cases hlo : T < m0
          · rw [if_pos hlo]
            exact exceptSome_ne_error_of _ _ (sliceEval_ne_surface_msg s m0 k)
          · rw [if_neg hlo]
            by_cases hhi : (m0 :: rest).getLast (List.cons_ne_nil m0 rest) < T
            · rw [if_pos hhi]
              exact exceptSome_ne_error_of _ _ (sliceEval_ne_surface_msg s _ k)
            · rw [if_neg hhi]
              simp
      · simp only [hfb]
        rcases except_eq_error_or_ok (s.sliceEval T1 k) with ⟨e, h1⟩ | ⟨iv1, h1⟩
        · simp only [h1]
          intro hc
          injection hc with h
          exact (sliceEval_ne_surface_msg s T1 k) (by rw [h1, h])
        · simp only [h1]
          rcases except_eq_error_or_ok (s.sliceEval T2 k) with ⟨e, h2⟩ | ⟨iv2, h2⟩
          · simp only [h2]
            intro hc
            injection hc with h
            exact (sliceEval_ne_surface_msg s T2 k) (by rw [h2, h])
          · simp only [h2]
            simp
    · simp only [hlk]
      exact exceptSome_ne_error_of _ _ (svi_evaluate_ne_surface_msg sl _)

/-! ### Claim theorems -/

/-- C1: the claim says `SVISurface.fit` calibrates and stores one slice per
entry of `market_data`.  In the source, `fit` calls `SVI(self.parameterization)`
although `SVI.__init__` requires `initial_params` as well, so on any
non-empty `market_data` the very first iteration raises `TypeError` and no
slice is ever stored. -/
theorem fit_always_raises_on_nonempty (minimizeOracle : ℚ → RawParams)
    (s : SVISurface) (market_data : List (ℚ × (List ℝ × List ℝ)))
    (h : market_data ≠ []) :
    SVISurface.fit minimizeOracle s market_data =
      .error (.typeError
        "SVI.__init__ missing 1 required positional argument: initial_params") := by
  cases market_data with
  | nil => exact absurd rfl h
  | cons e rest =>
    obtain ⟨T, kArr, ivArr⟩ := e
    rfl

/-- Witness for `fit_always_raises_on_nonempty` at the one-entry market data
`{0.5: ([0.0], [0.2])}`. -/
theorem fit_always_raises_on_nonempty_witness :
    ([(((1:ℚ)/2), (([0] : List ℝ), ([1/5] : List ℝ)))] ≠
        ([] : List (ℚ × (List ℝ × List ℝ)))) ∧
    SVISurface.fit (fun _ => ⟨0, 0, 0, 0, 0⟩) (SVISurface.empty .RAW)
        [(((1:ℚ)/2), (([0] : List ℝ), ([1/5] : List ℝ)))] =
      .error (.typeError
        "SVI.__init__ missing 1 required positional argument: initial_params") :=
  ⟨List.cons_ne_nil _ _,
   fit_always_raises_on_nonempty _ _ _ (List.cons_ne_nil _ _)⟩

/-- C2 counterexample: at the concrete NATURAL parameterization the total
variance evaluator silently returns `None` (no error of any kind), and
`optimize` raises `UnboundLocalError` over the unassigned `bounds` — there
is no "unsupported parameterization" error anywhere. -/
theorem unsupported_param_counterexample :
    svi_total_variance .NATURAL ⟨0, 0, 0, 0, 0⟩ 0 = none ∧
    SVI.optimize ⟨0, 0, 0, 0, 0⟩ ⟨.NATURAL, ⟨0, 0, 0, 0, 0⟩, none⟩ [] [] =
      .error (.unboundLocalError
        "local variable bounds referenced before assignment") :=
  ⟨rfl, rfl⟩

/-- C2 amended: for every parameterization other than RAW,
`svi_total_variance` silently falls through returning `None`;
`svi_implied_vol` then fails with a `TypeError` from `np.maximum(None, ...)`,
and `optimize` fails with an `UnboundLocalError` because `bounds` is never
assigned.  No "unsupported parameterization" error is raised. -/
theorem nonraw_fallthrough (pt : SVIParameterizationType) (p : RawParams)
    (k : ℝ) (svi : SVI) (minimizeResult : RawParams) (km ivm : List ℝ)
    (hpt : pt ≠ .RAW) (hsvi : svi.parameterization = pt) :
    svi_total_variance pt p k = none ∧
    svi_implied_vol pt p k = .error (.typeError
      "unsupported comparison between NoneType and float in np.maximum") ∧
    svi.optimize minimizeResult km ivm = .error (.unboundLocalError
      "local variable bounds referenced before assignment") := by
  obtain ⟨pt0, ip0, op0⟩ := svi
  have h2 : pt0 = pt := hsvi
  subst h2
  cases pt0 with
  | RAW => exact absurd rfl hpt
  | NATURAL => exact ⟨rfl, rfl, rfl⟩
  | JUMP_WING => exact ⟨rfl, rfl, rfl⟩

/-- Witness for `nonraw_fallthrough` at the NATURAL parameterization. -/
theorem nonraw_fallthrough_witness :
    (SVIParameterizationType.NATURAL ≠ .RAW) ∧
    (SVI.parameterization ⟨.NATURAL, ⟨0, 0, 0, 0, 0⟩, none⟩ = .NATURAL) ∧
    (svi_total_variance .NATURAL ⟨1, 1, 0, 0, 1⟩ 2 = none ∧
     svi_implied_vol .NATURAL ⟨1, 1, 0, 0, 1⟩ 2 = .error (.typeError
       "unsupported comparison between NoneType and float in np.maximum") ∧
     SVI.optimize ⟨0, 0, 0, 0, 0⟩ ⟨.NATURAL, ⟨0, 0, 0, 0, 0⟩, none⟩ [] [] =
       .error (.unboundLocalError
         "local variable bounds referenced before assignment")) :=
  ⟨by decide, rfl,
   nonraw_fallthrough .NATURAL ⟨1, 1, 0, 0, 1⟩ 2 ⟨.NATURAL, ⟨0, 0, 0, 0, 0⟩, none⟩
     ⟨0, 0, 0, 0, 0⟩ [] [] (by decide) rfl⟩

/-- C3: for every RAW parameter vector and every real log-moneyness `k`, the
implied volatility equals `sqrt(max(a + b(rho(k-m) + sqrt((k-m)^2 + sigma^2)),
1e-10))`; the argument of the outer square root is strictly positive (never
negative) and the returned implied volatility is non-negative. -/
theorem smile_implied_vol_formula (p : RawParams) (k : ℝ) :
    svi_implied_vol .RAW p k =
      .ok (Real.sqrt (max (p.a + p.b * (p.rho * (k - p.m) +
        Real.sqrt ((k - p.m) ^ 2 + p.sigma ^ 2))) ((varianceFloor : ℚ) : ℝ))) ∧
    (0 : ℝ) < max (p.a + p.b * (p.rho * (k - p.m) +
        Real.sqrt ((k - p.m) ^ 2 + p.sigma ^ 2))) ((varianceFloor : ℚ) : ℝ) ∧
    (0 : ℝ) ≤ Real.sqrt (max (p.a + p.b * (p.rho * (k - p.m) +
        Real.sqrt ((k - p.m) ^ 2 + p.sigma ^ 2))) ((varianceFloor : ℚ) : ℝ)) := by
  refine ⟨rfl, ?_, Real.sqrt_nonneg _⟩
  have h : (0 : ℝ) < ((varianceFloor : ℚ) : ℝ) := by
    norm_num [varianceFloor]
  exact h.trans_le (le_max_right _ _)

/-- C9: querying before fitting fails with the dedicated not-fitted
`RuntimeError` in both `SVI.evaluate` and `SVISurface.evaluate`, and the
state is recoverable: after a successful `optimize` the slice evaluates to
a value, and no surface whose `fitted_params` is populated can raise the
not-fitted error again. -/
theorem not_fitted_errors (svi : SVI) (s : SVISurface)
    (minimizeResult : RawParams) (km ivm : List ℝ) (k : ℝ) (kq T : ℚ)
    (h1 : svi.optimal_params = none) (h2 : s.fitted_params = [])
    (h3 : svi.parameterization = .RAW) :
    svi.evaluate k =
      .error (.runtimeError "You must call optimize() before evaluate().") ∧
    s.evaluate kq T =
      .error (.runtimeError "SVI surface has not been fitted yet.") ∧
    (∃ svi2, svi.optimize minimizeResult km ivm = .ok svi2 ∧
      ∃ v, svi2.evaluate k = .ok v) ∧
    ∀ s2 : SVISurface, s2.fitted_params ≠ [] →
      s2.evaluate kq T ≠
        .error (.runtimeError "SVI surface has not been fitted yet.") := by
  obtain ⟨pt0, ip0, op0⟩ := svi
  obtain ⟨spt, ssl, sfp⟩ := s
  have e1 : op0 = none := h1
  have e2 : sfp = [] := h2
  have e3 : pt0 = .RAW := h3
  subst e1; subst e2; subst e3
  exact ⟨rfl, rfl,
    ⟨⟨.RAW, ip0, some minimizeResult⟩, rfl,
      Real.sqrt (max (minimizeResult.a + minimizeResult.b *
        (minimizeResult.rho * (k - minimizeResult.m) +
          Real.sqrt ((k - minimizeResult.m) ^ 2 + minimizeResult.sigma ^ 2)))
        ((varianceFloor : ℚ) : ℝ)), rfl⟩,
    fun s2 hs2 => evaluate_ne_notfitted_of_fitted s2 kq T hs2⟩

/-- Witness for `not_fitted_errors` at a concrete unfitted model and empty
surface. -/
theorem not_fitted_errors_witness :
    (SVI.optimal_params ⟨.RAW, ⟨0, 0, 0, 0, 0⟩, none⟩ = none) ∧
    (SVISurface.fitted_params (SVISurface.empty .RAW) = []) ∧
    (SVI.parameterization ⟨.RAW, ⟨0, 0, 0, 0, 0⟩, none⟩ = .RAW) ∧
    (SVI.evaluate ⟨.RAW, ⟨0, 0, 0, 0, 0⟩, none⟩ 0 =
      .error (.runtimeError "You must call optimize() before evaluate().") ∧
    (SVISurface.empty .RAW).evaluate 0 1 =
      .error (.runtimeError "SVI surface has not been fitted yet.") ∧
    (∃ svi2, SVI.optimize ⟨1, 1, 0, 0, 1⟩ ⟨.RAW, ⟨0, 0, 0, 0, 0⟩, none⟩ [] [] =
        .ok svi2 ∧ ∃ v, svi2.evaluate 0 = .ok v) ∧
    ∀ s2 : SVISurface, s2.fitted_params ≠ [] →
      s2.evaluate 0 1 ≠
        .error (.runtimeError "SVI surface has not been fitted yet.")) :=
  ⟨rfl, rfl, rfl,
   not_fitted_errors ⟨.RAW, ⟨0, 0, 0, 0, 0⟩, none⟩ (SVISurface.empty .RAW)
     ⟨1, 1, 0, 0, 1⟩ [] [] 0 0 1 rfl rfl rfl⟩

/-- A zero parameter vector used in concrete examples. -/
def zeroParams : RawParams := ⟨0, 0, 0, 0, 0⟩

/-- A calibrated RAW slice used in concrete examples. -/
def fittedSvi : SVI := ⟨.RAW, zeroParams, some zeroParams⟩

/-- The implied volatility `fittedSvi.evaluate 0` produces. -/
noncomputable def fittedVolAt0 : ℝ :=
  Real.sqrt (max (zeroParams.a + zeroParams.b *
    (zeroParams.rho * (((0 : ℚ) : ℝ) - zeroParams.m) +
      Real.sqrt ((((0 : ℚ) : ℝ) - zeroParams.m) ^ 2 + zeroParams.sigma ^ 2)))
    ((varianceFloor : ℚ) : ℝ))

/-- A surface with one fitted slice at maturity 1. -/
def oneSliceSurface : SVISurface :=
  ⟨.RAW, [(1, fittedSvi)], [(1, some zeroParams)]⟩

/-- A surface with fitted slices at maturities 1 and 3. -/
def twoSliceSurface : SVISurface :=
  ⟨.RAW, [(1, fittedSvi), (3, fittedSvi)],
   [(1, some zeroParams), (3, some zeroParams)]⟩

/-- C4: when the query maturity `T` is exactly a stored dictionary key, the
surface returns precisely that slice's `evaluate(k)` — the interpolation
and extrapolation paths are never reached. -/
theorem evaluate_exact_maturity_match (s : SVISurface) (k T : ℚ) (sl : SVI)
    (hf : s.fitted_params ≠ []) (hl : s.slices.lookup T = some sl) :
    s.evaluate k T = exceptSome (sl.evaluate (k : ℝ)) := by
  unfold SVISurface.evaluate
  cases hfp : s.fitted_params with
  | nil => exact absurd hfp hf
  | cons a rest => rw [hl]

/-- Witness for `evaluate_exact_maturity_match` on `oneSliceSurface` at its
stored maturity 1. -/
theorem evaluate_exact_maturity_match_witness :
    (oneSliceSurface.fitted_params ≠ []) ∧
    (oneSliceSurface.slices.lookup 1 = some fittedSvi) ∧
    oneSliceSurface.evaluate 0 1 = exceptSome (fittedSvi.evaluate ((0 : ℚ) : ℝ)) :=
  ⟨List.cons_ne_nil _ _, rfl,
   evaluate_exact_maturity_match oneSliceSurface 0 1 fittedSvi
     (List.cons_ne_nil _ _) rfl⟩

/-- C5: for a query maturity strictly between two adjacent fitted maturities
`T1 < T < T2`, the surface returns the linear interpolation in implied-vol
space with weight `(T - T1)/(T2 - T1)`, and the result lies between the two
bracketing slice values. -/
theorem evaluate_linear_interpolation (s : SVISurface) (k T T1 T2 : ℚ)
    (l1 l2 : List ℚ) (sl1 sl2 : SVI) (iv1 iv2 : ℝ)
    (hf : s.fitted_params ≠ [])
    (hnd : (s.slices.map Prod.fst).Nodup)
    (hsk : s.sortedKeys = l1 ++ T1 :: T2 :: l2)
    (h1 : T1 < T) (h2 : T < T2)
    (hl1 : s.slices.lookup T1 = some sl1)
    (hl2 : s.slices.lookup T2 = some sl2)
    (he1 : sl1.evaluate (k : ℝ) = .ok iv1)
    (he2 : sl2.evaluate (k : ℝ) = .ok iv2) :
    s.evaluate k T =
      .ok (some ((1 - (((T - T1) / (T2 - T1) : ℚ) : ℝ)) * iv1 +
                 (((T - T1) / (T2 - T1) : ℚ) : ℝ) * iv2)) ∧
    min iv1 iv2 ≤ (1 - (((T - T1) / (T2 - T1) : ℚ) : ℝ)) * iv1 +
                 (((T - T1) / (T2 - T1) : ℚ) : ℝ) * iv2 ∧
    (1 - (((T - T1) / (T2 - T1) : ℚ) : ℝ)) * iv1 +
                 (((T - T1) / (T2 - T1) : ℚ) : ℝ) * iv2 ≤ max iv1 iv2 := by
  have hpw : (l1 ++ T1 :: T2 :: l2).Pairwise (· < ·) := by
    rw [← hsk]; exact sortedKeys_pairwise_lt s hnd
  have hTnotmem : T ∉ s.slices.map Prod.fst := by
    intro hm
    exact not_mem_of_between l1 l2 T1 T2 T hpw h1 h2
      (hsk ▸ (mem_sortedKeys s T).2 hm)
  have hlookT : s.slices.lookup T = none :=
    lookup_eq_none_of_not_mem_keys _ _ hTnotmem
  have hfb : findBracket s.sortedKeys T = some (T1, T2) := by
    rw [hsk]; exact findBracket_append l1 l2 T1 T2 T hpw h1 h2
  refine ⟨?_, ?_⟩
  · unfold SVISurface.evaluate
    cases hfp : s.fitted_params with
    | nil => exact absurd hfp hf
    | cons a rest =>
      simp only [hlookT, hfb, SVISurface.sliceEval, hl1, hl2, he1, he2]
  · have hd : (0 : ℚ) < T2 - T1 := by linarith
    have hw0 : (0 : ℚ) ≤ (T - T1) / (T2 - T1) :=
      div_nonneg (by linarith) hd.le
    have hw1 : (T - T1) / (T2 - T1) ≤ 1 := by
      rw [div_le_one hd]; linarith
    exact convex_comb_between (((T - T1) / (T2 - T1) : ℚ) : ℝ) iv1 iv2
      (by exact_mod_cast hw0) (by exact_mod_cast hw1)

/-- Witness for `evaluate_linear_interpolation` on `twoSliceSurface` at
maturity 2, strictly between the fitted maturities 1 and 3. -/
theorem evaluate_linear_interpolation_witness :
    (twoSliceSurface.fitted_params ≠ []) ∧
    ((twoSliceSurface.slices.map Prod.fst).Nodup) ∧
    (twoSliceSurface.sortedKeys = [] ++ 1 :: 3 :: []) ∧
    ((1 : ℚ) < 2) ∧ ((2 : ℚ) < 3) ∧
    (twoSliceSurface.slices.lookup 1 = some fittedSvi) ∧
    (twoSliceSurface.slices.lookup 3 = some fittedSvi) ∧
    (fittedSvi.evaluate ((0 : ℚ) : ℝ) = .ok fittedVolAt0) ∧
    (twoSliceSurface.evaluate 0 2 =
      .ok (some ((1 - ((((2 : ℚ) - 1) / (3 - 1) : ℚ) : ℝ)) * fittedVolAt0 +
                 ((((2 : ℚ) - 1) / (3 - 1) : ℚ) : ℝ) * fittedVolAt0)) ∧
     min fittedVolAt0 fittedVolAt0 ≤
        (1 - ((((2 : ℚ) - 1) / (3 - 1) : ℚ) : ℝ)) * fittedVolAt0 +
        ((((2 : ℚ) - 1) / (3 - 1) : ℚ) : ℝ) * fittedVolAt0 ∧
     (1 - ((((2 : ℚ) - 1) / (3 - 1) : ℚ) : ℝ)) * fittedVolAt0 +
        ((((2 : ℚ) - 1) / (3 - 1) : ℚ) : ℝ) * fittedVolAt0 ≤
        max fittedVolAt0 fittedVolAt0) :=
  ⟨List.cons_ne_nil _ _, by decide, by decide, by decide, by decide, rfl, rfl, rfl,
   evaluate_linear_interpolation twoSliceSurface 0 2 1 3 [] []
     fittedSvi fittedSvi fittedVolAt0 fittedVolAt0
     (List.cons_ne_nil _ _) (by decide) (by decide) (by decide) (by decide)
     rfl rfl rfl rfl⟩

/-- C6: for query maturities strictly below the smallest fitted maturity or
strictly above the largest, the surface returns exactly the nearest boundary
slice's `evaluate(k)`, independent of how far outside the fitted range the
query lies. -/
theorem evaluate_flat_extrapolation (s : SVISurface) (k : ℚ)
    (m0 : ℚ) (rest : List ℚ) (slA slB : SVI) (Tlo Thi : ℚ)
    (hf : s.fitted_params ≠ [])
    (hnd : (s.slices.map Prod.fst).Nodup)
    (hsk : s.sortedKeys = m0 :: rest)
    (hlo : Tlo < m0)
    (hA : s.slices.lookup m0 = some slA)
    (hhi : (m0 :: rest).getLast (List.cons_ne_nil m0 rest) < Thi)
    (hB : s.slices.lookup ((m0 :: rest).getLast (List.cons_ne_nil m0 rest)) =
      some slB) :
    s.evaluate k Tlo = exceptSome (slA.evaluate (k : ℝ)) ∧
    s.evaluate k Thi = exceptSome (slB.evaluate (k : ℝ)) := by
  have hsorted : (m0 :: rest).Pairwise (· ≤ ·) := by
    rw [← hsk]; exact List.sorted_insertionSort _ _
  have hpwlt : (m0 :: rest).Pairwise (· < ·) := by
    rw [← hsk]; exact sortedKeys_pairwise_lt s hnd
  have hm0min : ∀ x ∈ (m0 :: rest), m0 ≤ x := by
    intro x hx
    rcases List.mem_cons.1 hx with rfl | hx2
    · exact le_refl x
    · exact ((List.pairwise_cons.1 hpwlt).1 x hx2).le
  have hlastmax : ∀ x ∈ (m0 :: rest),
      x ≤ (m0 :: rest).getLast (List.cons_ne_nil m0 rest) :=
    fun x hx => le_getLast_of_pairwise _ hsorted x hx _
  constructor
  · -- below the smallest fitted maturity
    have hallgt : ∀ x ∈ s.sortedKeys, Tlo < x := by
      rw [hsk]
      exact fun x hx => hlo.trans_le (hm0min x hx)
    have hnm : Tlo ∉ s.slices.map Prod.fst := by
      intro hm
      exact absurd (hallgt Tlo ((mem_sortedKeys s Tlo).2 hm)) (lt_irrefl Tlo)
    have hlook : s.slices.lookup Tlo = none :=
      lookup_eq_none_of_not_mem_keys _ _ hnm
    have hfb : findBracket (m0 :: rest) Tlo = none := by
      rw [← hsk]; exact findBracket_eq_none_of_forall_lt _ _ hallgt
    unfold SVISurface.evaluate
    cases hfp : s.fitted_params with
    | nil => exact absurd hfp hf
    | cons a fps =>
      simp only [hlook, hsk, hfb]
      rw [if_pos hlo]
      simp only [SVISurface.sliceEval, hA]
  · -- above the largest fitted maturity
    have halllt : ∀ x ∈ s.sortedKeys, x < Thi := by
      rw [hsk]
      exact fun x hx => (hlastmax x hx).trans_lt hhi
    have hnm : Thi ∉ s.slices.map Prod.fst := by
      intro hm
      exact absurd (halllt Thi ((mem_sortedKeys s Thi).2 hm)) (lt_irrefl Thi)
    have hlook : s.slices.lookup Thi = none :=
      lookup_eq_none_of_not_mem_keys _ _ hnm
    have hfb : findBracket (m0 :: rest) Thi = none := by
      rw [← hsk]; exact findBracket_eq_none_of_forall_gt _ _ halllt
    have hnotlo : ¬ Thi < m0 :=
      not_lt.2 ((hm0min _ (List.getLast_mem _)).trans hhi.le)
    unfold SVISurface.evaluate
    cases hfp : s.fitted_params with
    | nil => exact absurd hfp hf
    | cons a fps =>
      simp only [hlook, hsk, hfb]
      rw [if_neg hnotlo, if_pos hhi]
      simp only [SVISurface.sliceEval, hB]

/-- Witness for `evaluate_flat_extrapolation` on `oneSliceSurface` (single
fitted maturity 1) at the outside queries 0 and 2. -/
theorem evaluate_flat_extrapolation_witness :
    (oneSliceSurface.fitted_params ≠ []) ∧
    ((oneSliceSurface.slices.map Prod.fst).Nodup) ∧
    (oneSliceSurface.sortedKeys = 1 :: []) ∧
    ((0 : ℚ) < 1) ∧
    (oneSliceSurface.slices.lookup 1 = some fittedSvi) ∧
    (((1 : ℚ) :: []).getLast (List.cons_ne_nil 1 []) < 2) ∧
    (oneSliceSurface.slices.lookup
      (((1 : ℚ) :: []).getLast (List.cons_ne_nil 1 [])) = some fittedSvi) ∧
    (oneSliceSurface.evaluate 0 0 = exceptSome (fittedSvi.evaluate ((0 : ℚ) : ℝ)) ∧
     oneSliceSurface.evaluate 0 2 = exceptSome (fittedSvi.evaluate ((0 : ℚ) : ℝ))) :=
  ⟨List.cons_ne_nil _ _, by decide, by decide, by decide, rfl, by decide, rfl,
   evaluate_flat_extrapolation oneSliceSurface 0 1 [] fittedSvi fittedSvi 0 2
     (List.cons_ne_nil _ _) (by decide) (by decide) (by decide) rfl
     (by decide) rfl⟩

/-- C7: with ascending duplicate-free grids (the documented GridSurface
invariant), `VolatilitySurface` construction succeeds exactly when the
volatility matrix is a 2-D array of shape
`(len(strikes), len(maturities))`; any other shape fails construction
immediately with a `ValueError`. -/
theorem grid_construction_shape_check (strikes maturities : List ℚ)
    (mat : List (List ℚ)) (extrapolate : Bool) (fill : ℚ)
    (hs : strictAsc strikes = true) (hm : strictAsc maturities = true)
    (_hs0 : strikes ≠ []) (_hm0 : maturities ≠ []) :
    (npShape mat = some (strikes.length, maturities.length) →
      VolatilitySurface.build strikes maturities mat extrapolate fill =
        .ok ⟨strikes, maturities, mat, extrapolate, fill⟩) ∧
    (npShape mat ≠ some (strikes.length, maturities.length) →
      ∃ msg, VolatilitySurface.build strikes maturities mat extrapolate fill =
        .error (.valueError msg)) := by
  constructor
  · intro h
    unfold VolatilitySurface.build
    rw [h]
    dsimp only
    have hcond : ((strictAsc strikes || strictDesc strikes) &&
        (strictAsc maturities || strictDesc maturities)) = true := by
      rw [hs, hm]; rfl
    rw [if_pos rfl, if_pos hcond]
  · intro h
    unfold VolatilitySurface.build
    cases hmat : npShape mat with
    | none => exact ⟨_, rfl⟩
    | some shape =>
      dsimp only
      have hne : ¬ shape = (strikes.length, maturities.length) :=
        fun hc => h (by rw [hmat, hc])
      rw [if_neg hne]
      exact ⟨_, rfl⟩

/-- Witness for `grid_construction_shape_check` with 4 strikes and 3
maturities; the second conjunct applies in particular to a matrix of shape
(4, 2) as in the claim's example. -/
theorem grid_construction_shape_check_witness :
    (strictAsc [(90 : ℚ), 100, 110, 120] = true) ∧
    (strictAsc [(1 : ℚ), 2, 3] = true) ∧
    ([(90 : ℚ), 100, 110, 120] ≠ []) ∧ ([(1 : ℚ), 2, 3] ≠ []) ∧
    ((npShape [[(30 : ℚ), 28], [25, 23], [28, 26], [31, 29]] =
        some ([(90 : ℚ), 100, 110, 120].length, [(1 : ℚ), 2, 3].length) →
      VolatilitySurface.build [(90 : ℚ), 100, 110, 120] [(1 : ℚ), 2, 3]
          [[(30 : ℚ), 28], [25, 23], [28, 26], [31, 29]] false 0 =
        .ok ⟨[(90 : ℚ), 100, 110, 120], [(1 : ℚ), 2, 3],
          [[(30 : ℚ), 28], [25, 23], [28, 26], [31, 29]], false, 0⟩) ∧
    (npShape [[(30 : ℚ), 28], [25, 23], [28, 26], [31, 29]] ≠
        some ([(90 : ℚ), 100, 110, 120].length, [(1 : ℚ), 2, 3].length) →
      ∃ msg, VolatilitySurface.build [(90 : ℚ), 100, 110, 120] [(1 : ℚ), 2, 3]
          [[(30 : ℚ), 28], [25, 23], [28, 26], [31, 29]] false 0 =
        .error (.valueError msg))) :=
  ⟨by decide, by decide, by decide, by decide,
   grid_construction_shape_check [(90 : ℚ), 100, 110, 120] [(1 : ℚ), 2, 3]
     [[(30 : ℚ), 28], [25, 23], [28, 26], [31, 29]] false 0
     (by decide) (by decide) (by decide) (by decide)⟩

/-- C8: on a no-extrapolation surface, `get_vol` fails with an out-of-bounds
`ValueError` exactly when the query lies outside the grid extent and
otherwise returns the bilinear interpolant; `get_vol_grid` fails as a whole
(producing nothing) as soon as any single query point is out of bounds, and
when every point is in bounds it returns a grid with one row per query
strike and one column per query maturity whose cells agree with the
pointwise `get_vol` values. -/
theorem grid_query_bounds (vs : VolatilitySurface) (sq mq : List ℚ) (s m : ℚ)
    (hex : vs.extrapolate = false) :
    (vs.oob s m = true → vs.get_vol s m =
      .error (.valueError "One of the requested xi is out of bounds")) ∧
    (vs.oob s m = false → vs.get_vol s m = .ok (vs.bilinearAt s m)) ∧
    ((∃ s2 ∈ sq, ∃ m2 ∈ mq, vs.oob s2 m2 = true) →
      vs.get_vol_grid sq mq =
        .error (.valueError "One of the requested xi is out of bounds")) ∧
    ((∀ s2 ∈ sq, ∀ m2 ∈ mq, vs.oob s2 m2 = false) →
      ∃ g, vs.get_vol_grid sq mq = .ok g ∧
        g.length = sq.length ∧
        (∀ row ∈ g, row.length = mq.length) ∧
        ∀ i j, i < sq.length → j < mq.length →
          vs.get_vol (sq.getD i 0) (mq.getD j 0) =
            .ok ((g.getD i []).getD j 0)) := by
  refine ⟨?_, ?_, ?_, ?_⟩
  · intro ho
    unfold VolatilitySurface.get_vol
    rw [if_pos ho, if_neg (by rw [hex]; exact Bool.false_ne_true)]
  · intro ho
    unfold VolatilitySurface.get_vol
    rw [if_neg (by rw [ho]; exact Bool.false_ne_true)]
  · rintro ⟨s2, hs2, m2, hm2, hoo⟩
    have hany : (sq.any fun a => mq.any fun b => vs.oob a b) = true :=
      List.any_eq_true.2 ⟨s2, hs2, List.any_eq_true.2 ⟨m2, hm2, hoo⟩⟩
    unfold VolatilitySurface.get_vol_grid
    rw [if_pos ⟨hex, hany⟩]
  · intro hall
    have hany : (sq.any fun a => mq.any fun b => vs.oob a b) = false := by
      rw [List.any_eq_false]
      intro a ha
      rw [Bool.not_eq_true, List.any_eq_false]
      intro b hb
      rw [Bool.not_eq_true]
      exact hall a ha b hb
    refine ⟨sq.map fun s2 => mq.map fun m2 =>
      if vs.oob s2 m2 then vs.fill_value else vs.bilinearAt s2 m2, ?_, ?_, ?_, ?_⟩
    · unfold VolatilitySurface.get_vol_grid
      rw [if_neg (fun hc => by rw [hany] at hc; exact Bool.false_ne_true hc.2)]
    · simp
    · intro row hrow
      obtain ⟨s2, _, rfl⟩ := List.mem_map.1 hrow
      simp
    · intro i j hi hj
      have hso : sq.getD i 0 ∈ sq := by
        rw [List.getD_eq_getElem sq 0 hi]; exact List.getElem_mem hi
      have hmo : mq.getD j 0 ∈ mq := by
        rw [List.getD_eq_getElem mq 0 hj]; exact List.getElem_mem hj
      have hcell : vs.oob (sq.getD i 0) (mq.getD j 0) = false :=
        hall _ hso _ hmo
      have hrow : ((sq.map fun s2 => mq.map fun m2 =>
          if vs.oob s2 m2 then vs.fill_value else vs.bilinearAt s2 m2).getD i []) =
          mq.map fun m2 => if vs.oob (sq.getD i 0) m2 then vs.fill_value
            else vs.bilinearAt (sq.getD i 0) m2 := by
        rw [List.getD_eq_getElem _ [] (by simpa using hi), List.getElem_map,
          List.getD_eq_getElem sq 0 hi]
      rw [hrow]
      have hcol : (mq.map fun m2 => if vs.oob (sq.getD i 0) m2 then vs.fill_value
          else vs.bilinearAt (sq.getD i 0) m2).getD j 0 =
          if vs.oob (sq.getD i 0) (mq.getD j 0) then vs.fill_value
            else vs.bilinearAt (sq.getD i 0) (mq.getD j 0) := by
        rw [List.getD_eq_getElem _ 0 (by simpa using hj), List.getElem_map,
          List.getD_eq_getElem mq 0 hj]
      rw [hcol, if_neg (by rw [hcell]; exact Bool.false_ne_true)]
      unfold VolatilitySurface.get_vol
      rw [if_neg (by rw [hcell]; exact Bool.false_ne_true)]

/-- The example grid of src/vola_surface.py (volatilities scaled to integer
rationals), with extrapolation disabled. -/
def exampleGrid : VolatilitySurface :=
  ⟨[90, 100, 110, 120], [1, 2, 4],
   [[30, 28, 25], [25, 23, 21], [28, 26, 24], [31, 29, 27]], false, 0⟩

/-- Witness for `grid_query_bounds` on `exampleGrid` with the query point
(50, 2) (out of bounds in strike) and the query grid [95, 100] x [2, 3]. -/
theorem grid_query_bounds_witness :
    (exampleGrid.extrapolate = false) ∧
    ((exampleGrid.oob 50 2 = true → exampleGrid.get_vol 50 2 =
      .error (.valueError "One of the requested xi is out of bounds")) ∧
    (exampleGrid.oob 50 2 = false → exampleGrid.get_vol 50 2 =
      .ok (exampleGrid.bilinearAt 50 2)) ∧
    ((∃ s2 ∈ [(95 : ℚ), 100], ∃ m2 ∈ [(2 : ℚ), 3],
        exampleGrid.oob s2 m2 = true) →
      exampleGrid.get_vol_grid [(95 : ℚ), 100] [(2 : ℚ), 3] =
        .error (.valueError "One of the requested xi is out of bounds")) ∧
    ((∀ s2 ∈ [(95 : ℚ), 100], ∀ m2 ∈ [(2 : ℚ), 3],
        exampleGrid.oob s2 m2 = false) →
      ∃ g, exampleGrid.get_vol_grid [(95 : ℚ), 100] [(2 : ℚ), 3] = .ok g ∧
        g.length = [(95 : ℚ), 100].length ∧
        (∀ row ∈ g, row.length = [(2 : ℚ), 3].length) ∧
        ∀ i j, i < [(95 : ℚ), 100].length → j < [(2 : ℚ), 3].length →
          exampleGrid.get_vol ([(95 : ℚ), 100].getD i 0)
              ([(2 : ℚ), 3].getD j 0) =
            .ok ((g.getD i []).getD j 0))) :=
  ⟨rfl, grid_query_bounds exampleGrid [(95 : ℚ), 100] [(2 : ℚ), 3] 50 2 rfl⟩

/-- C10: a surface constructed with `extrapolate=True` does not raise on an
out-of-range query; `get_vol` returns the configured `fill_value` instead,
so the no-extrapolation guarantee only holds for the default
`extrapolate=False` construction. -/
theorem extrapolate_true_returns_fill (strikes maturities : List ℚ)
    (mat : List (List ℚ)) (fill : ℚ) (vs : VolatilitySurface) (s m : ℚ)
    (hb : VolatilitySurface.build strikes maturities mat true fill = .ok vs)
    (ho : vs.oob s m = true) :
    vs.extrapolate = true ∧ vs.fill_value = fill ∧
    vs.get_vol s m = .ok fill := by
  have hvs : vs = ⟨strikes, maturities, mat, true, fill⟩ := by
    unfold VolatilitySurface.build at hb
    cases hmat : npShape mat with
    | none => rw [hmat] at hb; exact Except.noConfusion hb
    | some shape =>
      rw [hmat] at hb
      dsimp only at hb
      split_ifs at hb
      all_goals injection hb with h
      exact h.symm
  subst hvs
  refine ⟨rfl, rfl, ?_⟩
  unfold VolatilitySurface.get_vol
  rw [if_pos ho, if_pos rfl]

/-- Witness for `extrapolate_true_returns_fill` on a 2 x 2 grid built with
`extrapolate=True` and `fill_value = 7`, queried at the out-of-range point
(0, 0). -/
theorem extrapolate_true_returns_fill_witness :
    (VolatilitySurface.build [(1 : ℚ), 2] [(1 : ℚ), 2] [[(5 : ℚ), 5], [5, 5]]
        true 7 =
      .ok ⟨[(1 : ℚ), 2], [(1 : ℚ), 2], [[(5 : ℚ), 5], [5, 5]], true, 7⟩) ∧
    (VolatilitySurface.oob
        ⟨[(1 : ℚ), 2], [(1 : ℚ), 2], [[(5 : ℚ), 5], [5, 5]], true, 7⟩ 0 0 =
      true) ∧
    (VolatilitySurface.extrapolate
        ⟨[(1 : ℚ), 2], [(1 : ℚ), 2], [[(5 : ℚ), 5], [5, 5]], true, 7⟩ = true ∧
     VolatilitySurface.fill_value
        ⟨[(1 : ℚ), 2], [(1 : ℚ), 2], [[(5 : ℚ), 5], [5, 5]], true, 7⟩ = 7 ∧
     VolatilitySurface.get_vol
        ⟨[(1 : ℚ), 2], [(1 : ℚ), 2], [[(5 : ℚ), 5], [5, 5]], true, 7⟩ 0 0 =
       .ok 7) :=
  ⟨rfl, rfl,
   extrapolate_true_returns_fill [(1 : ℚ), 2] [(1 : ℚ), 2] [[(5 : ℚ), 5], [5, 5]]
     7 ⟨[(1 : ℚ), 2], [(1 : ℚ), 2], [[(5 : ℚ), 5], [5, 5]], true, 7⟩ 0 0
     rfl rfl⟩
